import Mathlib

/-
Verification of the HubSpot webhook event router (src/router.py) of the
AI-SDR repository.

The router inspects exactly three keys of the incoming payload dict:
subscriptionType, objectId and propertyName.  Each is modelled as an
optional string: `none` models an absent key (Python `dict.get` returning
`None`).  Python truthiness of such a field (`if not subscription_type`)
is false exactly for `None` and the empty string.

The four workflow handlers (`enrich.run`, `draft.run`, `followup.run`,
`prep.run`) and the error sink (`integrations.slack.post_error`) are
external collaborators that may raise; they are modelled as parameters
returning `Except String Unit`, where `Except.error e` models a raised
exception with message `e` (Python `str(e)`).

`route_event` is modelled as a function from the handler environment and
the payload to the list of observable effects it performs (log lines,
handler invocations, error-sink calls), paired with the exception, if any,
that escapes to its caller.  The try/except structure of the source is
translated into this pairing, so the statement that the second component
is always `Except.ok ()` is exactly the statement that `route_event`
never propagates an exception.

Log messages interpolate the payload dict; its Python repr is abstracted
by the canonical rendering `Payload.fmt`.
-/

namespace AISDR

/-- The projection of a HubSpot webhook payload onto the three keys that
`route_event` reads.  `none` models an absent key. -/
structure Payload where
  subscriptionType : Option String
  objectId : Option String
  propertyName : Option String
  deriving DecidableEq, Repr

/-- Python truthiness of an optional string field: `None` and the empty
string are falsy, every other string is truthy. -/
def truthy : Option String → Bool
  | none => false
  | some s => s != ""

/-- Rendering of an optional string inside an f-string: Python prints
`None` for an absent value and the bare string otherwise. -/
def optFmt : Option String → String
  | none => "None"
  | some s => s

/-- Canonical rendering of a payload, standing in for the Python repr of
the dict that the f-strings of router.py interpolate. -/
def Payload.fmt (p : Payload) : String :=
  "(subscriptionType=" ++ optFmt p.subscriptionType ++
  ", objectId=" ++ optFmt p.objectId ++
  ", propertyName=" ++ optFmt p.propertyName ++ ")"

/-- The four workflow handlers of src/workflows. -/
inductive HandlerName where
  | enrich
  | draft
  | followup
  | prep
  deriving DecidableEq, Repr

/-- An observable effect of one `route_event` call: a log line at some
severity, an awaited handler invocation, or a call to the error sink
(`post_error`) carrying a message and the original payload as context. -/
inductive Effect where
  | logWarning (msg : String)
  | logInfo (msg : String)
  | logError (msg : String)
  | invoke (h : HandlerName) (subjectId : String)
  | postError (msg : String) (payload : Payload)
  deriving DecidableEq, Repr

/-- The external collaborators of the router: the four workflow handlers
and the error sink.  `Except.error e` models the call raising an
exception with message `e`. -/
structure Handlers where
  enrich : String → Except String Unit
  draft : String → Except String Unit
  followup : String → Except String Unit
  prep : String → Except String Unit
  post_error : String → Payload → Except String Unit

/-- The propertyName values routed to the draft workflow
(router.py line 49). -/
def draftProps : List (Option String) :=
  [some "lifecyclestage", some "lead_status", some "hs_lead_status"]

/-- The propertyName values routed to the followup workflow
(router.py line 52). -/
def followupProps : List (Option String) :=
  [some "notes_last_updated", some "engagement_last_updated",
   some "email_opened", some "email_clicked"]

/-- The body of the `try` block of `route_event` (router.py lines 23-75):
the effects it performs and the exception, if any, it raises. -/
def tryBody (H : Handlers) (payload : Payload) :
    List Effect × Except String Unit :=
  if truthy payload.subscriptionType = false then
    ([Effect.logWarning
        ("Webhook payload missing subscriptionType: " ++ payload.fmt)],
     Except.ok ())
  else
    let st := payload.subscriptionType.getD ""
    let routing := Effect.logInfo ("Routing event: " ++ st)
    if st = "contact.creation" then
      if truthy payload.objectId then
        ([routing, Effect.invoke HandlerName.enrich (payload.objectId.getD "")],
         H.enrich (payload.objectId.getD ""))
      else
        ([routing,
          Effect.logError
            ("Contact creation event missing objectId: " ++ payload.fmt)],
         Except.ok ())
    else if st = "contact.propertyChange" then
      if truthy payload.objectId = false then
        ([routing,
          Effect.logError
            ("Contact property change missing objectId: " ++ payload.fmt)],
         Except.ok ())
      else if payload.propertyName ∈ draftProps then
        ([routing, Effect.invoke HandlerName.draft (payload.objectId.getD "")],
         H.draft (payload.objectId.getD ""))
      else if payload.propertyName ∈ followupProps then
        ([routing,
          Effect.invoke HandlerName.followup (payload.objectId.getD "")],
         H.followup (payload.objectId.getD ""))
      else
        ([routing,
          Effect.logInfo
            ("Unhandled property change: " ++ optFmt payload.propertyName ++
             " for contact " ++ payload.objectId.getD "")],
         Except.ok ())
    else if st = "deal.propertyChange" then
      if truthy payload.objectId = false then
        ([routing,
          Effect.logError
            ("Deal property change missing objectId: " ++ payload.fmt)],
         Except.ok ())
      else if payload.propertyName = some "dealstage" then
        ([routing, Effect.invoke HandlerName.prep (payload.objectId.getD "")],
         H.prep (payload.objectId.getD ""))
      else
        ([routing,
          Effect.logInfo
            ("Unhandled deal property change: " ++ optFmt payload.propertyName ++
             " for deal " ++ payload.objectId.getD "")],
         Except.ok ())
    else
      ([routing, Effect.logWarning ("Unhandled subscription type: " ++ st)],
       Except.ok ())

/-- `route_event` (router.py lines 11-85): the `try` body wrapped in the
top-level `except`, which logs the error, calls `post_error` with the
original payload as context, and swallows a failure of `post_error`
itself after logging it.  The second component is the exception, if any,
escaping to the caller. -/
def route_event (H : Handlers) (payload : Payload) :
    List Effect × Except String Unit :=
  match tryBody H payload with
  | (effs, Except.ok ()) => (effs, Except.ok ())
  | (effs, Except.error e) =>
    match H.post_error ("Error routing event: " ++ e) payload with
    | Except.ok () =>
      (effs ++
        [Effect.logError ("Error routing event: " ++ e),
         Effect.postError ("Error routing event: " ++ e) payload],
       Except.ok ())
    | Except.error se =>
      (effs ++
        [Effect.logError ("Error routing event: " ++ e),
         Effect.postError ("Error routing event: " ++ e) payload,
         Effect.logError ("Failed to post error to Slack: " ++ se)],
       Except.ok ())

/-- The handler invocations recorded in an effect trace, in order. -/
def invocations : List Effect → List (HandlerName × String)
  | [] => []
  | Effect.invoke h s :: rest => (h, s) :: invocations rest
  | Effect.logWarning _ :: rest => invocations rest
  | Effect.logInfo _ :: rest => invocations rest
  | Effect.logError _ :: rest => invocations rest
  | Effect.postError _ _ :: rest => invocations rest

/-- The error-sink notifications recorded in an effect trace, in order. -/
def sinkNotifications : List Effect → List (String × Payload)
  | [] => []
  | Effect.postError m p :: rest => (m, p) :: sinkNotifications rest
  | Effect.logWarning _ :: rest => sinkNotifications rest
  | Effect.logInfo _ :: rest => sinkNotifications rest
  | Effect.logError _ :: rest => sinkNotifications rest
  | Effect.invoke _ _ :: rest => sinkNotifications rest

/-- A handler environment in which every collaborator succeeds. -/
def okHandlers : Handlers where
  enrich := fun _ => Except.ok ()
  draft := fun _ => Except.ok ()
  followup := fun _ => Except.ok ()
  prep := fun _ => Except.ok ()
  post_error := fun _ _ => Except.ok ()

/-- A handler environment in which every workflow handler raises but the
error sink succeeds. -/
def failingHandlers : Handlers where
  enrich := fun _ => Except.error "boom"
  draft := fun _ => Except.error "boom"
  followup := fun _ => Except.error "boom"
  prep := fun _ => Except.error "boom"
  post_error := fun _ _ => Except.ok ()

/-- A handler environment in which every workflow handler raises and the
error sink raises as well. -/
def failingSinkHandlers : Handlers where
  enrich := fun _ => Except.error "boom"
  draft := fun _ => Except.error "boom"
  followup := fun _ => Except.error "boom"
  prep := fun _ => Except.error "boom"
  post_error := fun _ _ => Except.error "slack down"

theorem invocations_append (l₁ l₂ : List Effect) :
    invocations (l₁ ++ l₂) = invocations l₁ ++ invocations l₂ := by
  induction l₁ with
  | nil => rfl
  | cons e rest ih => cases e <;> simp [invocations, ih]

theorem sinkNotifications_append (l₁ l₂ : List Effect) :
    sinkNotifications (l₁ ++ l₂) =
      sinkNotifications l₁ ++ sinkNotifications l₂ := by
  induction l₁ with
  | nil => rfl
  | cons e rest ih => cases e <;> simp [sinkNotifications, ih]

/-- The except block of `route_event` adds no handler invocation: the
invocations of a `route_event` call are those of its try body. -/
theorem invocations_route_event (H : Handlers) (p : Payload) :
    invocations (route_event H p).1 = invocations (tryBody H p).1 := by
  rcases htb : tryBody H p with ⟨effs, r⟩
  cases r with
  | ok u =>
    cases u
    simp [route_event, htb]
  | error e =>
    cases hpe : H.post_error ("Error routing event: " ++ e) p with
    | ok u =>
      cases u
      simp [route_event, htb, hpe, invocations_append, invocations]
    | error se =>
      simp [route_event, htb, hpe, invocations_append, invocations]

/-- The try body never calls the error sink: only the except block does. -/
theorem sinkNotifications_tryBody (H : Handlers) (p : Payload) :
    sinkNotifications (tryBody H p).1 = [] := by
  simp only [tryBody]
  split_ifs <;> simp [sinkNotifications]

/-- When the try body raises no exception, `route_event` returns its
effects unchanged and raises nothing. -/
theorem route_event_of_ok (H : Handlers) (p : Payload)
    (h : (tryBody H p).2 = Except.ok ()) :
    route_event H p = ((tryBody H p).1, Except.ok ()) := by
  rcases htb : tryBody H p with ⟨effs, r⟩
  rw [htb] at h
  simp only at h
  subst h
  simp [route_event, htb]

/-- C4: for every payload with discriminator contact.creation and a
present subject identifier, exactly the Enrich handler is invoked with
that identifier, and no other handler is invoked. -/
theorem C4_contact_creation_enriches (H : Handlers) (p : Payload)
    (id : String)
    (hs : p.subscriptionType = some "contact.creation")
    (hid : p.objectId = some id) (hne : id ≠ "") :
    invocations (route_event H p).1 = [(HandlerName.enrich, id)] := by
  rw [invocations_route_event]
  simp [tryBody, hs, hid, truthy, hne, invocations]

/-- C4 witness: the concrete scenario objectId 42. -/
theorem C4_contact_creation_enriches_witness :
    invocations (route_event okHandlers
      ⟨some "contact.creation", some "42", none⟩).1 =
      [(HandlerName.enrich, "42")] :=
  C4_contact_creation_enriches okHandlers
    ⟨some "contact.creation", some "42", none⟩ "42" rfl rfl (by decide)

/-- C3: for every payload missing the discriminator (subscriptionType),
`route_event` drops the event: no handler invocation, no error-sink
notification, only a single warning log line. -/
theorem C3_missing_discriminator_drops (H : Handlers) (p : Payload)
    (h : p.subscriptionType = none) :
    invocations (route_event H p).1 = [] ∧
    sinkNotifications (route_event H p).1 = [] ∧
    (route_event H p).1 =
      [Effect.logWarning
        ("Webhook payload missing subscriptionType: " ++ p.fmt)] := by
  have hr : route_event H p = ((tryBody H p).1, Except.ok ()) :=
    route_event_of_ok H p (by simp [tryBody, h, truthy])
  rw [hr]
  refine ⟨?_, ?_, ?_⟩ <;> simp [tryBody, h, truthy, invocations, sinkNotifications]

/-- C3 witness: the empty payload is dropped with one warning. -/
theorem C3_missing_discriminator_drops_witness :
    invocations (route_event okHandlers ⟨none, none, none⟩).1 = [] ∧
    sinkNotifications (route_event okHandlers ⟨none, none, none⟩).1 = [] ∧
    (route_event okHandlers ⟨none, none, none⟩).1 =
      [Effect.logWarning
        ("Webhook payload missing subscriptionType: " ++
          Payload.fmt ⟨none, none, none⟩)] :=
  C3_missing_discriminator_drops okHandlers ⟨none, none, none⟩ rfl

/-- C8: a single `route_event` call invokes at most one workflow handler
at most once; the router never fans one event out to several handlers. -/
theorem C8_at_most_one_invocation (H : Handlers) (p : Payload) :
    (invocations (route_event H p).1).length ≤ 1 := by
  rw [invocations_route_event]
  simp only [tryBody]
  split_ifs <;> simp [invocations]

/-- C1: for every contact.propertyChange payload with a present subject
identifier, a propertyName in the draft set routes exactly to Draft, one
in the followup set routes exactly to Followup, and any other
propertyName (including an absent one) routes to no handler. -/
theorem C1_contact_propertyChange_routing (H : Handlers) (p : Payload)
    (id : String)
    (hs : p.subscriptionType = some "contact.propertyChange")
    (hid : p.objectId = some id) (hne : id ≠ "") :
    (p.propertyName ∈ draftProps →
      invocations (route_event H p).1 = [(HandlerName.draft, id)]) ∧
    (p.propertyName ∈ followupProps →
      invocations (route_event H p).1 = [(HandlerName.followup, id)]) ∧
    (p.propertyName ∉ draftProps → p.propertyName ∉ followupProps →
      invocations (route_event H p).1 = []) := by
  rw [invocations_route_event]
  refine ⟨?_, ?_, ?_⟩
  · intro h
    simp only [draftProps, List.mem_cons, List.not_mem_nil, or_false] at h
    rcases h with h | h | h <;>
      simp [tryBody, hs, hid, truthy, hne, h, draftProps, followupProps,
        invocations]
  · intro h
    simp only [followupProps, List.mem_cons, List.not_mem_nil, or_false] at h
    rcases h with h | h | h | h <;>
      simp [tryBody, hs, hid, truthy, hne, h, draftProps, followupProps,
        invocations]
  · intro h₁ h₂
    simp [tryBody, hs, hid, truthy, hne, h₁, h₂, invocations]

/-- C1 witness: the concrete scenario hs_lead_status routes to Draft. -/
theorem C1_contact_propertyChange_routing_witness :
    invocations (route_event okHandlers
      ⟨some "contact.propertyChange", some "42", some "hs_lead_status"⟩).1 =
      [(HandlerName.draft, "42")] :=
  (C1_contact_propertyChange_routing okHandlers
      ⟨some "contact.propertyChange", some "42", some "hs_lead_status"⟩
      "42" rfl rfl (by decide)).1 (by simp [draftProps])

/-- C5: for every deal.propertyChange payload with a present deal
identifier, propertyName dealstage routes exactly to Prep with that
identifier, and any other propertyName routes to no handler. -/
theorem C5_deal_propertyChange_routing (H : Handlers) (p : Payload)
    (id : String)
    (hs : p.subscriptionType = some "deal.propertyChange")
    (hid : p.objectId = some id) (hne : id ≠ "") :
    (p.propertyName = some "dealstage" →
      invocations (route_event H p).1 = [(HandlerName.prep, id)]) ∧
    (p.propertyName ≠ some "dealstage" →
      invocations (route_event H p).1 = []) := by
  rw [invocations_route_event]
  constructor
  · intro h
    simp [tryBody, hs, hid, truthy, hne, h, invocations]
  · intro h
    simp [tryBody, hs, hid, truthy, hne, h, invocations]

/-- C5 witness: the concrete scenario dealstage change on deal 99. -/
theorem C5_deal_propertyChange_routing_witness :
    invocations (route_event okHandlers
      ⟨some "deal.propertyChange", some "99", some "dealstage"⟩).1 =
      [(HandlerName.prep, "99")] :=
  (C5_deal_propertyChange_routing okHandlers
      ⟨some "deal.propertyChange", some "99", some "dealstage"⟩
      "99" rfl rfl (by decide)).1 rfl

/-- C2: whenever the try body of `route_event` raises (its only raisers
are the awaited handler invocations), `route_event` still returns
normally and the error sink receives exactly one notification whose
context is the original payload. -/
theorem C2_handler_failure_reported (H : Handlers) (p : Payload)
    (e : String) (h : (tryBody H p).2 = Except.error e) :
    (route_event H p).2 = Except.ok () ∧
    sinkNotifications (route_event H p).1 =
      [("Error routing event: " ++ e, p)] := by
  have hsink := sinkNotifications_tryBody H p
  rcases htb : tryBody H p with ⟨effs, r⟩
  rw [htb] at h hsink
  simp only at h hsink
  subst h
  cases hpe : H.post_error ("Error routing event: " ++ e) p with
  | ok u =>
    cases u
    simp [route_event, htb, hpe, sinkNotifications_append,
      sinkNotifications, hsink]
  | error se =>
    simp [route_event, htb, hpe, sinkNotifications_append,
      sinkNotifications, hsink]

/-- C2 witness: a raising Enrich handler on the creation scenario. -/
theorem C2_handler_failure_reported_witness :
    (tryBody failingHandlers ⟨some "contact.creation", some "42", none⟩).2 =
      Except.error "boom" ∧
    ((route_event failingHandlers
        ⟨some "contact.creation", some "42", none⟩).2 = Except.ok () ∧
     sinkNotifications (route_event failingHandlers
        ⟨some "contact.creation", some "42", none⟩).1 =
       [("Error routing event: " ++ "boom",
         ⟨some "contact.creation", some "42", none⟩)]) :=
  ⟨by simp [tryBody, failingHandlers, truthy],
   C2_handler_failure_reported failingHandlers
     ⟨some "contact.creation", some "42", none⟩ "boom"
     (by simp [tryBody, failingHandlers, truthy])⟩

/-- C6: a payload of one of the three recognised discriminators whose
objectId is missing is dropped: no handler invocation, no error-sink
notification, only an error log line. -/
theorem C6_missing_objectId_dropped (H : Handlers) (p : Payload)
    (hs : p.subscriptionType = some "contact.creation" ∨
          p.subscriptionType = some "contact.propertyChange" ∨
          p.subscriptionType = some "deal.propertyChange")
    (hid : p.objectId = none) :
    invocations (route_event H p).1 = [] ∧
    sinkNotifications (route_event H p).1 = [] ∧
    (∃ msg, Effect.logError msg ∈ (route_event H p).1) := by
  have hr : route_event H p = ((tryBody H p).1, Except.ok ()) :=
    route_event_of_ok H p
      (by rcases hs with h | h | h <;> simp [tryBody, h, hid, truthy])
  rw [hr]
  rcases hs with h | h | h <;>
    exact ⟨by simp [tryBody, h, hid, truthy, invocations],
           by simp [tryBody, h, hid, truthy, sinkNotifications],
           by simp [tryBody, h, hid, truthy]⟩

/-- C6 witness: a contact.propertyChange payload without objectId. -/
theorem C6_missing_objectId_dropped_witness :
    invocations (route_event okHandlers
      ⟨some "contact.propertyChange", none, some "hs_lead_status"⟩).1 = [] ∧
    sinkNotifications (route_event okHandlers
      ⟨some "contact.propertyChange", none, some "hs_lead_status"⟩).1 = [] ∧
    (∃ msg, Effect.logError msg ∈ (route_event okHandlers
      ⟨some "contact.propertyChange", none, some "hs_lead_status"⟩).1) :=
  C6_missing_objectId_dropped okHandlers
    ⟨some "contact.propertyChange", none, some "hs_lead_status"⟩
    (Or.inr (Or.inl rfl)) rfl

/-- C7: if the error sink itself raises while an error is being reported,
`route_event` still returns normally; the secondary failure is logged
and swallowed. -/
theorem C7_sink_failure_swallowed (H : Handlers) (p : Payload)
    (e se : String) (h : (tryBody H p).2 = Except.error e)
    (hsink : H.post_error ("Error routing event: " ++ e) p =
      Except.error se) :
    (route_event H p).2 = Except.ok () ∧
    Effect.logError ("Failed to post error to Slack: " ++ se) ∈
      (route_event H p).1 := by
  rcases htb : tryBody H p with ⟨effs, r⟩
  rw [htb] at h
  simp only at h
  subst h
  simp [route_event, htb, hsink]

/-- C7 witness: both the Enrich handler and the error sink raise. -/
theorem C7_sink_failure_swallowed_witness :
    (tryBody failingSinkHandlers
      ⟨some "contact.creation", some "42", none⟩).2 = Except.error "boom" ∧
    failingSinkHandlers.post_error ("Error routing event: " ++ "boom")
      ⟨some "contact.creation", some "42", none⟩ =
        Except.error "slack down" ∧
    ((route_event failingSinkHandlers
        ⟨some "contact.creation", some "42", none⟩).2 = Except.ok () ∧
     Effect.logError ("Failed to post error to Slack: " ++ "slack down") ∈
       (route_event failingSinkHandlers
         ⟨some "contact.creation", some "42", none⟩).1) :=
  ⟨by simp [tryBody, failingSinkHandlers, truthy], rfl,
   C7_sink_failure_swallowed failingSinkHandlers
     ⟨some "contact.creation", some "42", none⟩ "boom" "slack down"
     (by simp [tryBody, failingSinkHandlers, truthy]) rfl⟩

/-- C10: a present-but-falsy field behaves as a missing one.  An empty
subscriptionType is dropped with only a warning and no handler; an empty
objectId on any of the three recognised discriminators yields no handler
invocation, no error-sink notification, and an error log line — the
empty identifier is never passed to a handler. -/
theorem C10_falsy_fields_treated_as_missing (H : Handlers) (p : Payload) :
    (p.subscriptionType = some "" →
      invocations (route_event H p).1 = [] ∧
      sinkNotifications (route_event H p).1 = [] ∧
      (route_event H p).1 =
        [Effect.logWarning
          ("Webhook payload missing subscriptionType: " ++ p.fmt)]) ∧
    (p.objectId = some "" →
      (p.subscriptionType = some "contact.creation" ∨
       p.subscriptionType = some "contact.propertyChange" ∨
       p.subscriptionType = some "deal.propertyChange") →
      invocations (route_event H p).1 = [] ∧
      sinkNotifications (route_event H p).1 = [] ∧
      (∃ msg, Effect.logError msg ∈ (route_event H p).1)) := by
  constructor
  · intro h
    have hr : route_event H p = ((tryBody H p).1, Except.ok ()) :=
      route_event_of_ok H p (by simp [tryBody, h, truthy])
    rw [hr]
    refine ⟨?_, ?_, ?_⟩ <;>
      simp [tryBody, h, truthy, invocations, sinkNotifications]
  · intro hid hs
    have hr : route_event H p = ((tryBody H p).1, Except.ok ()) :=
      route_event_of_ok H p
        (by rcases hs with h | h | h <;> simp [tryBody, h, hid, truthy])
    rw [hr]
    rcases hs with h | h | h <;>
      exact ⟨by simp [tryBody, h, hid, truthy, invocations],
             by simp [tryBody, h, hid, truthy, sinkNotifications],
             by simp [tryBody, h, hid, truthy]⟩

/-- C10 witness: an empty subscriptionType and an empty objectId on a
creation event are both dropped without any handler invocation. -/
theorem C10_falsy_fields_treated_as_missing_witness :
    invocations (route_event okHandlers ⟨some "", some "42", none⟩).1 = [] ∧
    invocations (route_event okHandlers
      ⟨some "contact.creation", some "", none⟩).1 = [] :=
  ⟨((C10_falsy_fields_treated_as_missing okHandlers
      ⟨some "", some "42", none⟩).1 rfl).1,
   ((C10_falsy_fields_treated_as_missing okHandlers
      ⟨some "contact.creation", some "", none⟩).2 rfl (Or.inl rfl)).1⟩

end AISDR
